import Mathlib

/-!
Shallow embedding of the WLDF WhatsApp service conversation engine and
persistence layer, translated from the Python source:

  * `src/models/enums.py`            — `UserType`, `ConversationState`
  * `src/models/conversation.py`     — `Conversation`, `update_state`, `go_back`
  * `src/_utils/conversation_manager.py`
      — `ConversationManager.get_or_create_conversation`,
        `handle_message`, `_is_conversation_timeout`, the state handlers and
        `_get_state_response`
  * `src/database/database.py`       — `SQLiteDatabase.transaction`,
        `AsyncSQLiteDatabase.transaction`

Python attributes are dynamically typed: `update_state` is called with the
result of `dict.get`, which may be `None`, so `current_state` is embedded as
`Option ConversationState` (and the history stack as a list of such values).
Timestamps are embedded as integer seconds; `datetime.utcnow()` becomes an
explicit `now : Int` argument threaded to each operation that reads the clock.
The SQLAlchemy session commits are made observable as an explicit list of
`CommitEvent`s returned alongside the result.
-/

/-- `UserType` enum from `src/models/enums.py`. -/
inductive UserType where
  | STUDIO_HEAD
  | PARENT
  | DANCER
  | ADMIN
  | UNKNOWN
deriving DecidableEq, Repr

/-- The string `.value` of each `UserType` member. -/
def UserType.value : UserType → String
  | .STUDIO_HEAD => "studio_head"
  | .PARENT => "parent"
  | .DANCER => "dancer"
  | .ADMIN => "admin"
  | .UNKNOWN => "unknown"

/-- Python `UserType(s)` guarded by `s in [ut.value for ut in UserType]`:
returns the member whose value is `s`, if any. -/
def UserType.ofValue (s : String) : Option UserType :=
  if s == "studio_head" then some .STUDIO_HEAD
  else if s == "parent" then some .PARENT
  else if s == "dancer" then some .DANCER
  else if s == "admin" then some .ADMIN
  else if s == "unknown" then some .UNKNOWN
  else none

/-- `ConversationState` enum from `src/models/enums.py`. -/
inductive ConversationState where
  | START
  | REGISTRATION
  | USER_TYPE_SELECTION
  | STUDIO_HEAD_AUTHENTICATION
  | STUDIO_HEAD_MENU
  | PARENT_MENU
  | DANCER_MENU
  | COMPETITION_REGISTRATION
  | DANCER_REGISTRATION
  | LICENSE_RENEWAL
  | END
deriving DecidableEq, Repr

/-- `state_data` is a JSON dict (string keys); values are kept abstract as
strings, enough for the claims, which only ever clear or preserve it. -/
def StateData := List (String × String)
deriving DecidableEq, Repr

/-- The `Conversation` model from `src/models/conversation.py`, restricted to
the columns the conversation engine reads or writes per message.
`current_state` is `Option` because the Python code can (and does) assign
`None` to it; `last_interaction` is `Option` because the column is checked
for `None` in `_is_conversation_timeout`. -/
structure Conversation where
  phone_number : String
  user_type : UserType
  current_state : Option ConversationState
  state_data : StateData
  state_history : List (Option ConversationState)
  last_interaction : Option Int
deriving DecidableEq, Repr

/-- `Conversation.update_state`: if the new state differs from the current
one, append the current state to the history, move to the new state and
refresh `last_interaction`; otherwise do nothing. -/
def Conversation.update_state (c : Conversation)
    (new_state : Option ConversationState) (now : Int) : Conversation :=
  if c.current_state ≠ new_state then
    { c with
      state_history := c.state_history ++ [c.current_state]
      current_state := new_state
      last_interaction := some now }
  else c

/-- `Conversation.go_back`: if the history stack is non-empty, pop its last
entry into `current_state`, refresh `last_interaction` and return the popped
value; otherwise return `none` and leave the conversation untouched.  The
first component is exactly the Python return value (`None` both when the
stack is empty and — degenerately — when the popped entry itself is `None`). -/
def Conversation.go_back (c : Conversation) (now : Int) :
    Option ConversationState × Conversation :=
  match c.state_history.getLast? with
  | some prev =>
      (prev,
       { c with
         state_history := c.state_history.dropLast
         current_state := prev
         last_interaction := some now })
  | none => (none, c)

/-- Default value of the `timeout_minutes` parameter of
`ConversationManager._is_conversation_timeout`. -/
def timeout_minutes : Int := 30

/-- `ConversationManager._is_conversation_timeout` with the default
threshold: true iff `now - last_interaction` exceeds `timeout_minutes * 60`
seconds; a conversation with no `last_interaction` never times out. -/
def is_conversation_timeout (now : Int) (c : Conversation) : Bool :=
  match c.last_interaction with
  | none => false
  | some li => now - li > timeout_minutes * 60

/-- Python `str.lower` (ASCII): character-wise lowering, structurally
recursive so that proofs can evaluate it (core `String.toLower` recurses by
a well-founded measure the kernel cannot unfold). -/
def strLower (s : String) : String := ⟨s.data.map Char.toLower⟩

/-- A value inside the `data` dict of a response descriptor: either a string
(phone numbers, user-type values) or the nested `state_data` dict. -/
inductive DataValue where
  | str (s : String)
  | dict (d : StateData)
deriving DecidableEq, Repr

/-- The response descriptor `{"template": ..., "data": {...}}` returned by
`ConversationManager.handle_message` and the state handlers. -/
structure Response where
  template : String
  data : List (String × DataValue)
deriving DecidableEq, Repr

/-- The `templates` dict of `ConversationManager._get_state_response`, as a
lookup on the (possibly `None`) current state. -/
def templates : Option ConversationState → Option String
  | some .START => some "welcome_template"
  | some .USER_TYPE_SELECTION => some "user_type_selection_template"
  | some .STUDIO_HEAD_MENU => some "studio_head_menu_template"
  | some .PARENT_MENU => some "parent_menu_template"
  | some .DANCER_MENU => some "dancer_menu_template"
  | some .COMPETITION_REGISTRATION => some "competition_registration_template"
  | some .DANCER_REGISTRATION => some "dancer_registration_template"
  | some .LICENSE_RENEWAL => some "license_renewal_template"
  | _ => none

/-- `ConversationManager._get_state_response`: template looked up from the
current state with `"error_template"` as the dict-`get` default. -/
def get_state_response (c : Conversation) : Response :=
  { template := (templates c.current_state).getD "error_template"
    data := [("phone_number", .str c.phone_number),
             ("user_type", .str c.user_type.value),
             ("state_data", .dict c.state_data)] }

/-- The `next_states` dict inside
`ConversationManager._handle_user_type_selection`; `dict.get` yields `None`
for `ADMIN` and `UNKNOWN`, which have no entry. -/
def next_states : UserType → Option ConversationState
  | .STUDIO_HEAD => some .STUDIO_HEAD_MENU
  | .PARENT => some .PARENT_MENU
  | .DANCER => some .DANCER_MENU
  | _ => none

/-- `ConversationManager._handle_start`: unconditionally transition to
`USER_TYPE_SELECTION` and return the user-type-selection descriptor. -/
def handle_start (c : Conversation) (_message : String) (now : Int) :
    Response × Conversation :=
  let c := c.update_state (some .USER_TYPE_SELECTION) now
  ({ template := "user_type_selection_template"
     data := [("phone_number", .str c.phone_number)] }, c)

/-- `ConversationManager._handle_user_type_selection`: lowercase the message;
if it is the value of some `UserType` member, record that user type, move to
`next_states.get(user_type)` (which is `None` for `ADMIN`/`UNKNOWN`) and
return the state response; otherwise return the invalid-user-type descriptor
with the conversation untouched. -/
def handle_user_type_selection (c : Conversation) (message : String)
    (now : Int) : Response × Conversation :=
  let message := strLower message
  match UserType.ofValue message with
  | some ut =>
      let c := { c with user_type := ut }
      let next_state := next_states c.user_type
      let c := c.update_state next_state now
      (get_state_response c, c)
  | none =>
      ({ template := "invalid_user_type_template"
         data := [("phone_number", .str c.phone_number)] }, c)

/-- The `options` dict of `ConversationManager._handle_studio_head_menu`. -/
def studio_head_menu_options : String → Option ConversationState
  | "1" => some .COMPETITION_REGISTRATION
  | "2" => some .DANCER_REGISTRATION
  | "3" => some .LICENSE_RENEWAL
  | _ => none

/-- `ConversationManager._handle_studio_head_menu`: if the message is one of
"1"/"2"/"3", transition to the corresponding state and return the state
response; otherwise return the invalid-option descriptor unchanged. -/
def handle_studio_head_menu (c : Conversation) (message : String)
    (now : Int) : Response × Conversation :=
  match studio_head_menu_options message with
  | some st =>
      let c := c.update_state (some st) now
      (get_state_response c, c)
  | none =>
      ({ template := "invalid_option_template"
         data := [("phone_number", .str c.phone_number)] }, c)

/-- Type of a state handler: `(conversation, message, now) ↦
(response, mutated conversation)`. -/
def Handler := Conversation → String → Int → Response × Conversation

/-- The `state_handlers` dict built in `ConversationManager.__init__`; only
`START`, `USER_TYPE_SELECTION` and `STUDIO_HEAD_MENU` are registered (the
remaining entries are commented out in the source), and a `None`
current state has no handler either (`dict.get` on a missing key). -/
def state_handlers : Option ConversationState → Option Handler
  | some .START => some handle_start
  | some .USER_TYPE_SELECTION => some handle_user_type_selection
  | some .STUDIO_HEAD_MENU => some handle_studio_head_menu
  | _ => none

/-- The committed database state: which phone numbers own a `User` row
(`users` — `User.number` carries no uniqueness constraint in the model, but
only membership matters to the engine) and the committed `Conversation`
rows, whose `phone_number` column is declared `unique`. -/
structure Store where
  users : List String
  convs : List Conversation
deriving DecidableEq, Repr

/-- An observable `session.commit()` during the handling of one message:
either the commit inside `get_or_create_conversation` that persists a newly
created `User`/`Conversation` pair, or a commit of the (possibly mutated)
conversation from `handle_message`. -/
inductive CommitEvent where
  | creation (phone : String)
  | mutation (c : Conversation)
deriving DecidableEq, Repr

/-- The `Conversation(...)` constructor call in `get_or_create_conversation`
together with the column defaults of `src/models/conversation.py`. -/
def newConversation (phone : String) (now : Int) : Conversation :=
  { phone_number := phone
    user_type := .UNKNOWN
    current_state := some .START
    state_data := []
    state_history := []
    last_interaction := some now }

/-- `SELECT ... WHERE Conversation.phone_number == phone` with
`scalar_one_or_none()`. -/
def Store.findConv (store : Store) (phone : String) : Option Conversation :=
  store.convs.find? (fun c => c.phone_number == phone)

/-- Result of one `get_or_create_conversation` call: the conversation the
session now holds, the committed store, a user row added and flushed but not
yet committed (this happens when the user is missing while the conversation
exists — the source then never reaches its `commit()`), and the commits the
call itself performed. -/
structure SessionResult where
  conversation : Conversation
  store : Store
  pending_user : Option String
  events : List CommitEvent
deriving DecidableEq, Repr

/-- `ConversationManager.get_or_create_conversation` run sequentially (no
interleaved session): select the user, create one if absent (flush only);
select the conversation; if absent, create it and `commit()` — this is the
only commit in the function, and it happens only on the creation path. -/
def get_or_create_conversation (store : Store) (phone : String) (now : Int) :
    SessionResult :=
  let user_found := store.users.contains phone
  match store.findConv phone with
  | some c =>
      { conversation := c
        store := store
        pending_user := if user_found then none else some phone
        events := [] }
  | none =>
      let c := newConversation phone now
      { conversation := c
        store := { users := if user_found then store.users
                            else phone :: store.users
                   convs := c :: store.convs }
        pending_user := none
        events := [CommitEvent.creation phone] }

/-- A `session.commit()` in `handle_message`: the (possibly mutated)
conversation row replaces the committed row with its phone number, and a
pending user insert from `get_or_create_conversation`, if any, is committed
along with it. -/
def commitStore (store : Store) (pending_user : Option String)
    (c : Conversation) : Store :=
  { users := match pending_user with
             | some u => u :: store.users
             | none => store.users
    convs := c :: store.convs.filter
               (fun x => !(x.phone_number == c.phone_number)) }

/-- The timeout response literal of `handle_message`. -/
def timeout_response (phone : String) : Response :=
  { template := "timeout_template"
    data := [("phone_number", .str phone)] }

/-- The part of `handle_message` after the `"back"` check: the timeout
branch (reset to `START`, clear `state_data`, commit, return the timeout
descriptor) and otherwise handler dispatch (run the handler, commit, return
its response; with no registered handler, return the error descriptor and
commit nothing). -/
def dispatch_message (r : SessionResult) (c1 : Conversation)
    (phone message : String) (now : Int) :
    Response × Store × List CommitEvent :=
  if is_conversation_timeout now c1 then
    let c2 := c1.update_state (some .START) now
    let c2 := { c2 with state_data := [] }
    (timeout_response phone, commitStore r.store r.pending_user c2,
     r.events ++ [CommitEvent.mutation c2])
  else
    match state_handlers c1.current_state with
    | some h =>
        let rc := h c1 message now
        (rc.1, commitStore r.store r.pending_user rc.2,
         r.events ++ [CommitEvent.mutation rc.2])
    | none =>
        ({ template := "error_template", data := [] }, r.store, r.events)

/-- `ConversationManager.handle_message`: get-or-create the conversation;
if the message is `"back"` (case-insensitive), call `go_back` — when the
returned previous state is truthy (every enum value is a non-empty string,
so truthy ⟺ `isSome`), commit and return the current-state response;
otherwise fall through to `dispatch_message`. Returns the response, the
committed store and the list of commits performed. -/
def handle_message (store : Store) (phone message : String) (now : Int) :
    Response × Store × List CommitEvent :=
  let r := get_or_create_conversation store phone now
  let pc :=
    if strLower message == "back" then r.conversation.go_back now
    else (none, r.conversation)
  if pc.1.isSome then
    (get_state_response pc.2, commitStore r.store r.pending_user pc.2,
     r.events ++ [CommitEvent.mutation pc.2])
  else
    dispatch_message r pc.2 phone message now

/-- Database-raised error surfaced to a session. -/
inductive DBError where
  | integrityError
deriving DecidableEq, Repr

/-- `ConversationManager.get_or_create_conversation` again, but with the
store snapshots the session observes made explicit, so that interleavings of
two concurrent sessions can be expressed: `storeAtUserSelect` and
`storeAtConvSelect` are the committed stores at the two SELECTs, and
`storeAtCommit` is the committed store when this session's `commit()` (if it
reaches one) executes.  The `unique` constraint on
`Conversation.phone_number` makes the commit of a duplicate row fail; the
source wraps the commit in no `try`/`except`, so that failure is the call's
outcome (the whole transaction, user insert included, rolls back). -/
def get_or_create_conversation_race (phone : String) (now : Int)
    (storeAtUserSelect storeAtConvSelect storeAtCommit : Store) :
    Except DBError (Conversation × Store) :=
  let user_found := storeAtUserSelect.users.contains phone
  match storeAtConvSelect.findConv phone with
  | some c => Except.ok (c, storeAtCommit)
  | none =>
      let c := newConversation phone now
      if (storeAtCommit.findConv phone).isSome then
        Except.error DBError.integrityError
      else
        Except.ok (c,
          { users := if user_found then storeAtCommit.users
                     else phone :: storeAtCommit.users
            convs := c :: storeAtCommit.convs })

/-- A live SQLite connection: the last committed database state and the
current state including uncommitted statements of the open transaction. -/
structure SqliteConn (σ : Type) where
  durable : σ
  current : σ
deriving DecidableEq, Repr

/-- `conn.commit()`: make the current state durable. -/
def SqliteConn.commit {σ : Type} (c : SqliteConn σ) : SqliteConn σ :=
  { durable := c.current, current := c.current }

/-- `conn.rollback()`: discard uncommitted statements, reverting the current
state to the last committed one. -/
def SqliteConn.rollback {σ : Type} (c : SqliteConn σ) : SqliteConn σ :=
  { durable := c.durable, current := c.durable }

/-- `SQLiteDatabase.transaction` (`src/database/database.py`, lines
120–128): run the body on the connection; on normal completion commit, on a
raised exception roll back and re-raise the same exception.  The body is a
function from the connection to a result-or-exception plus the connection
state at its exit. -/
def SQLiteDatabase.transaction {σ ε α : Type} (conn : SqliteConn σ)
    (body : SqliteConn σ → Except ε α × SqliteConn σ) :
    Except ε α × SqliteConn σ :=
  match body conn with
  | (Except.ok a, c2) => (Except.ok a, c2.commit)
  | (Except.error e, c2) => (Except.error e, c2.rollback)

/-- `AsyncSQLiteDatabase.transaction` (`src/database/database.py`, lines
222–230): textually the awaited twin of the synchronous version; in the
shallow embedding the suspension points disappear and the body is the same
commit-on-success / rollback-and-re-raise-on-error wrapper. -/
def AsyncSQLiteDatabase.transaction {σ ε α : Type} (conn : SqliteConn σ)
    (body : SqliteConn σ → Except ε α × SqliteConn σ) :
    Except ε α × SqliteConn σ :=
  match body conn with
  | (Except.ok a, c2) => (Except.ok a, c2.commit)
  | (Except.error e, c2) => (Except.error e, c2.rollback)

/-! ## C5 — history-stack law machinery -/

/-- A sequence of `update_state` transitions applied in arrival order (all
sharing one clock reading, which the law does not depend on). -/
def applyTransitions (c : Conversation)
    (ts : List (Option ConversationState)) (now : Int) : Conversation :=
  ts.foldl (fun acc t => acc.update_state t now) c

/-- Every transition of the sequence actually changes `current_state` at the
moment it is applied. -/
def allChangingB (now : Int) :
    Conversation → List (Option ConversationState) → Bool
  | _, [] => true
  | c, t :: ts =>
      (t != c.current_state) && allChangingB now (c.update_state t now) ts


/-! ## Helper lemmas shared by the claim theorems -/

/-- Reducing `get_or_create_conversation` when the conversation exists. -/
lemma get_or_create_found (store : Store) (phone : String) (now : Int)
    (c : Conversation) (h : store.findConv phone = some c) :
    get_or_create_conversation store phone now =
      { conversation := c
        store := store
        pending_user := if store.users.contains phone then none
                        else some phone
        events := [] } := by
  unfold get_or_create_conversation
  rw [h]

/-- Reducing `get_or_create_conversation` on a previously-unseen phone. -/
lemma get_or_create_absent (store : Store) (phone : String) (now : Int)
    (h : store.findConv phone = none) :
    get_or_create_conversation store phone now =
      { conversation := newConversation phone now
        store := { users := if store.users.contains phone then store.users
                            else phone :: store.users
                   convs := newConversation phone now :: store.convs }
        pending_user := none
        events := [CommitEvent.creation phone] } := by
  unfold get_or_create_conversation
  rw [h]

/-- `go_back` on an empty history returns `none` and changes nothing. -/
lemma go_back_nil (c : Conversation) (now : Int)
    (h : c.state_history = []) : c.go_back now = (none, c) := by
  unfold Conversation.go_back
  rw [h]
  rfl

/-- When the conversation exists and the message does not pop a non-empty
history, `handle_message` is the `dispatch_message` phase. -/
lemma handle_message_no_pop (store : Store) (phone message : String)
    (now : Int) (c : Conversation)
    (hfind : store.findConv phone = some c)
    (hnb : ¬(strLower message = "back" ∧ c.state_history ≠ [])) :
    handle_message store phone message now =
      dispatch_message (get_or_create_conversation store phone now) c
        phone message now := by
  unfold handle_message
  rw [get_or_create_found store phone now c hfind]
  by_cases hb : strLower message = "back"
  · have hh : c.state_history = [] := by
      by_contra hne
      exact hnb ⟨hb, hne⟩
    simp only [hb]
    simp [go_back_nil c now hh]
  · simp [hb]

/-- The timeout branch of `handle_message`, for any message that does not
pop a non-empty history. -/
lemma handle_message_timeout (store : Store) (phone message : String)
    (now : Int) (c : Conversation)
    (hfind : store.findConv phone = some c)
    (hT : is_conversation_timeout now c = true)
    (hnb : ¬(strLower message = "back" ∧ c.state_history ≠ [])) :
    handle_message store phone message now =
      (timeout_response phone,
       commitStore store
         (get_or_create_conversation store phone now).pending_user
         { c.update_state (some ConversationState.START) now with
             state_data := [] },
       [CommitEvent.mutation
         { c.update_state (some ConversationState.START) now with
             state_data := [] }]) := by
  rw [handle_message_no_pop store phone message now c hfind hnb]
  unfold dispatch_message
  rw [get_or_create_found store phone now c hfind]
  simp [hT]

/-- Timing out is monotone in the clock. -/
lemma timeout_mono (now now2 : Int) (c : Conversation)
    (h : now ≤ now2) (hT : is_conversation_timeout now c = true) :
    is_conversation_timeout now2 c = true := by
  unfold is_conversation_timeout at *
  cases hli : c.last_interaction with
  | none => rw [hli] at hT; exact absurd hT (by simp)
  | some li =>
      rw [hli] at hT
      simp only [decide_eq_true_eq] at *
      omega

/-- After `commitStore`, the committed row for the conversation's phone
number is the newly committed conversation. -/
lemma findConv_commitStore (store : Store) (p : Option String)
    (c : Conversation) (phone : String)
    (h : (c.phone_number == phone) = true) :
    (commitStore store p c).findConv phone = some c := by
  unfold commitStore Store.findConv
  simp [List.find?_cons_of_pos, h]

lemma applyTransitions_concat (c : Conversation)
    (ts : List (Option ConversationState)) (t : Option ConversationState)
    (now : Int) :
    applyTransitions c (ts ++ [t]) now =
      (applyTransitions c ts now).update_state t now := by
  unfold applyTransitions
  rw [List.foldl_append]
  rfl

lemma allChangingB_last (now : Int) (c : Conversation)
    (ts : List (Option ConversationState)) (t : Option ConversationState)
    (h : allChangingB now c (ts ++ [t]) = true) :
    t ≠ (applyTransitions c ts now).current_state := by
  induction ts generalizing c with
  | nil =>
      simp only [List.nil_append] at h
      unfold allChangingB at h
      simp only [Bool.and_eq_true, bne_iff_ne] at h
      simpa [applyTransitions] using h.1
  | cons s ts ih =>
      simp only [List.cons_append] at h
      unfold allChangingB at h
      simp only [Bool.and_eq_true] at h
      have := ih (c.update_state s now) h.2
      simpa [applyTransitions] using this

/-- `update_state` always lands on the requested state (whether or not it
was a change). -/
lemma update_state_current (c : Conversation)
    (t : Option ConversationState) (now : Int) :
    (c.update_state t now).current_state = t := by
  by_cases h : c.current_state = t <;>
    simp [Conversation.update_state, h]

/-- `update_state` to the current state is the identity. -/
lemma update_state_noop (c : Conversation)
    (t : Option ConversationState) (now : Int)
    (h : c.current_state = t) : c.update_state t now = c := by
  simp [Conversation.update_state, h]

/-- The timeout test only reads `last_interaction`. -/
lemma timeout_congr (n : Int) (c d : Conversation)
    (h : c.last_interaction = d.last_interaction) :
    is_conversation_timeout n c = is_conversation_timeout n d := by
  unfold is_conversation_timeout
  rw [h]

/-- `update_state` never touches the phone number. -/
lemma update_state_phone (c : Conversation)
    (t : Option ConversationState) (now : Int) :
    (c.update_state t now).phone_number = c.phone_number := by
  by_cases h : c.current_state = t <;>
    simp [Conversation.update_state, h]

/-- No spelling of "back" (any capitalization) is one of the studio-head
menu options "1"/"2"/"3". -/
lemma options_of_back (message : String) (h : strLower message = "back") :
    studio_head_menu_options message = none := by
  unfold studio_head_menu_options
  split
  · exact absurd h (by decide)
  · exact absurd h (by decide)
  · exact absurd h (by decide)
  · rfl

/-! ## Claim theorems -/

/-- C5: after a sequence of transitions that each actually change
`current_state` (each pushing the prior state), one `go_back` lands on the
state that was current immediately before the last transition; and a
transition to the same state is a complete no-op, pushing nothing onto the
history stack. -/
theorem C5_history_stack_law (c : Conversation)
    (ts : List (Option ConversationState)) (t : Option ConversationState)
    (now now2 : Int)
    (h : allChangingB now c (ts ++ [t]) = true) :
    ((applyTransitions c (ts ++ [t]) now).go_back now2).2.current_state
      = (applyTransitions c ts now).current_state
    ∧ ∀ (d : Conversation) (n : Int),
        d.update_state d.current_state n = d := by
  constructor
  · have hne := allChangingB_last now c ts t h
    rw [applyTransitions_concat]
    have hne2 : (applyTransitions c ts now).current_state ≠ t :=
      fun hh => hne hh.symm
    simp [Conversation.update_state, hne2, Conversation.go_back,
      List.getLast?_concat]
  · intro d n
    simp [Conversation.update_state]

/-- Witness for C5 at a concrete run: START → USER_TYPE_SELECTION →
STUDIO_HEAD_MENU, then "back" lands on USER_TYPE_SELECTION. -/
theorem C5_history_stack_law_witness :
    ((applyTransitions
        ⟨"p", UserType.UNKNOWN, some ConversationState.START, [], [], some 0⟩
        ([some ConversationState.USER_TYPE_SELECTION] ++
          [some ConversationState.STUDIO_HEAD_MENU]) 1).go_back 2).2.current_state
      = (applyTransitions
          ⟨"p", UserType.UNKNOWN, some ConversationState.START, [], [], some 0⟩
          [some ConversationState.USER_TYPE_SELECTION] 1).current_state
    ∧ ∀ (d : Conversation) (n : Int),
        d.update_state d.current_state n = d :=
  C5_history_stack_law
    ⟨"p", UserType.UNKNOWN, some ConversationState.START, [], [], some 0⟩
    [some ConversationState.USER_TYPE_SELECTION]
    (some ConversationState.STUDIO_HEAD_MENU) 1 2 (by decide)

/-- C8: an input not recognized by the registered handler of the current
state leaves the conversation (current_state, state_data, history stack)
exactly unchanged and yields that state's invalid-option descriptor.  The
two registered handlers with an unrecognized-input branch are
`_handle_user_type_selection` and `_handle_studio_head_menu`; the third
registered handler, `_handle_start`, recognizes every input, so the claim is
vacuous for it. -/
theorem C8_invalid_input_is_frame (c : Conversation) (message : String)
    (now : Int) :
    (UserType.ofValue (strLower message) = none →
      handle_user_type_selection c message now =
        ({ template := "invalid_user_type_template"
           data := [("phone_number", DataValue.str c.phone_number)] }, c))
    ∧ (studio_head_menu_options message = none →
      handle_studio_head_menu c message now =
        ({ template := "invalid_option_template"
           data := [("phone_number", DataValue.str c.phone_number)] }, c)) := by
  constructor
  · intro h
    simp [handle_user_type_selection, h]
  · intro h
    simp [handle_studio_head_menu, h]

/-- Witness for C8: the message "9" is recognized by neither handler and is
a frame for both. -/
theorem C8_invalid_input_is_frame_witness :
    (handle_user_type_selection
        ⟨"p", UserType.UNKNOWN, some ConversationState.USER_TYPE_SELECTION,
          [("k", "v")], [some ConversationState.START], some 5⟩ "9" 6 =
      ({ template := "invalid_user_type_template"
         data := [("phone_number", DataValue.str "p")] },
       ⟨"p", UserType.UNKNOWN, some ConversationState.USER_TYPE_SELECTION,
          [("k", "v")], [some ConversationState.START], some 5⟩))
    ∧ (handle_studio_head_menu
        ⟨"p", UserType.UNKNOWN, some ConversationState.STUDIO_HEAD_MENU,
          [("k", "v")], [some ConversationState.START], some 5⟩ "9" 6 =
      ({ template := "invalid_option_template"
         data := [("phone_number", DataValue.str "p")] },
       ⟨"p", UserType.UNKNOWN, some ConversationState.STUDIO_HEAD_MENU,
          [("k", "v")], [some ConversationState.START], some 5⟩)) :=
  ⟨(C8_invalid_input_is_frame
      ⟨"p", UserType.UNKNOWN, some ConversationState.USER_TYPE_SELECTION,
        [("k", "v")], [some ConversationState.START], some 5⟩ "9" 6).1
      (by decide),
   (C8_invalid_input_is_frame
      ⟨"p", UserType.UNKNOWN, some ConversationState.STUDIO_HEAD_MENU,
        [("k", "v")], [some ConversationState.START], some 5⟩ "9" 6).2
      (by decide)⟩

/-- C9: for the SQLite transaction scopes (blocking and non-blocking
variants): a body that completes normally gets its connection committed; a
body that raises gets the connection rolled back and the very same exception
re-raised to the caller. -/
theorem C9_transaction_commit_rollback {σ ε α : Type}
    (conn : SqliteConn σ)
    (body : SqliteConn σ → Except ε α × SqliteConn σ) :
    (∀ (a : α) (c2 : SqliteConn σ), body conn = (Except.ok a, c2) →
      SQLiteDatabase.transaction conn body = (Except.ok a, c2.commit)
      ∧ AsyncSQLiteDatabase.transaction conn body =
          (Except.ok a, c2.commit))
    ∧ (∀ (e : ε) (c2 : SqliteConn σ), body conn = (Except.error e, c2) →
      SQLiteDatabase.transaction conn body = (Except.error e, c2.rollback)
      ∧ AsyncSQLiteDatabase.transaction conn body =
          (Except.error e, c2.rollback)) := by
  constructor <;> intro x c2 h <;>
    exact ⟨by simp [SQLiteDatabase.transaction, h],
           by simp [AsyncSQLiteDatabase.transaction, h]⟩

/-- Witness for C9: a succeeding body is committed; a failing body is rolled
back with the same error. -/
theorem C9_transaction_commit_rollback_witness :
    (SQLiteDatabase.transaction (⟨0, 0⟩ : SqliteConn Nat)
        (fun cn => ((Except.ok 7 : Except Nat Nat),
          { cn with current := cn.current + 1 }))
      = (Except.ok 7, ⟨1, 1⟩)
    ∧ AsyncSQLiteDatabase.transaction (⟨0, 0⟩ : SqliteConn Nat)
        (fun cn => ((Except.ok 7 : Except Nat Nat),
          { cn with current := cn.current + 1 }))
      = (Except.ok 7, ⟨1, 1⟩))
    ∧ (SQLiteDatabase.transaction (⟨0, 0⟩ : SqliteConn Nat)
        (fun cn => ((Except.error 3 : Except Nat Nat),
          { cn with current := 9 }))
      = (Except.error 3, ⟨0, 0⟩)
    ∧ AsyncSQLiteDatabase.transaction (⟨0, 0⟩ : SqliteConn Nat)
        (fun cn => ((Except.error 3 : Except Nat Nat),
          { cn with current := 9 }))
      = (Except.error 3, ⟨0, 0⟩)) :=
  ⟨(C9_transaction_commit_rollback (⟨0, 0⟩ : SqliteConn Nat)
      (fun cn => ((Except.ok 7 : Except Nat Nat),
        { cn with current := cn.current + 1 }))).1 7 ⟨0, 1⟩ rfl,
   (C9_transaction_commit_rollback (⟨0, 0⟩ : SqliteConn Nat)
      (fun cn => ((Except.error 3 : Except Nat Nat),
        { cn with current := 9 }))).2 3 ⟨0, 9⟩ rfl⟩

/-- C7: with no handler registered for the current state (and no timeout and
no popping "back"), `handle_message` returns the generic error descriptor,
commits nothing, and leaves the store — hence the conversation's
current_state, state_data and history stack — exactly as it was. -/
theorem C7_unknown_state_error_no_commit (store : Store)
    (phone message : String) (now : Int) (c : Conversation)
    (hfind : store.findConv phone = some c)
    (hh : state_handlers c.current_state = none)
    (hT : is_conversation_timeout now c = false)
    (hnb : ¬(strLower message = "back" ∧ c.state_history ≠ [])) :
    handle_message store phone message now =
      ({ template := "error_template", data := [] }, store, []) := by
  rw [handle_message_no_pop store phone message now c hfind hnb]
  unfold dispatch_message
  rw [get_or_create_found store phone now c hfind]
  simp [hT, hh]

/-- Witness for C7: a conversation parked in the terminal END state (which
has no registered handler) gets the error descriptor and no commit. -/
theorem C7_unknown_state_error_no_commit_witness :
    handle_message
      ⟨["p"], [⟨"p", UserType.UNKNOWN, some ConversationState.END,
        [("k", "v")], [some ConversationState.START], some 40⟩]⟩
      "p" "hi" 50 =
    ({ template := "error_template", data := [] },
     ⟨["p"], [⟨"p", UserType.UNKNOWN, some ConversationState.END,
        [("k", "v")], [some ConversationState.START], some 40⟩]⟩,
     []) :=
  C7_unknown_state_error_no_commit
    ⟨["p"], [⟨"p", UserType.UNKNOWN, some ConversationState.END,
      [("k", "v")], [some ConversationState.START], some 40⟩]⟩
    "p" "hi" 50
    ⟨"p", UserType.UNKNOWN, some ConversationState.END,
      [("k", "v")], [some ConversationState.START], some 40⟩
    (by decide) rfl (by decide) (by decide)

/-- C2 counterexample: a timed-out conversation that receives "back" while
its history stack is non-empty is popped and answered with the popped
state's descriptor — it is not reset to START, its `state_data` survives and
the timeout descriptor is not returned, although the timeout predicate
holds. -/
theorem C2_counterexample :
    (handle_message
        ⟨["p"], [⟨"p", UserType.UNKNOWN,
          some ConversationState.STUDIO_HEAD_MENU, [("k", "v")],
          [some ConversationState.START,
           some ConversationState.USER_TYPE_SELECTION], some 0⟩]⟩
        "p" "back" 10000).1 ≠ timeout_response "p"
    ∧ is_conversation_timeout 10000
        ⟨"p", UserType.UNKNOWN, some ConversationState.STUDIO_HEAD_MENU,
          [("k", "v")],
          [some ConversationState.START,
           some ConversationState.USER_TYPE_SELECTION], some 0⟩ = true
    ∧ ((handle_message
        ⟨["p"], [⟨"p", UserType.UNKNOWN,
          some ConversationState.STUDIO_HEAD_MENU, [("k", "v")],
          [some ConversationState.START,
           some ConversationState.USER_TYPE_SELECTION], some 0⟩]⟩
        "p" "back" 10000).2.1.findConv "p").map (fun x => x.current_state)
      = some (some ConversationState.USER_TYPE_SELECTION) := by decide

/-- C2 (amended): a timed-out conversation receiving any message that is not
a "back" popping a non-empty history is reset to START with cleared
state_data, the reset is committed, and the timeout descriptor is returned
without dispatching to any state handler. -/
theorem C2_timeout_reset (store : Store) (phone message : String)
    (now : Int) (c : Conversation)
    (hfind : store.findConv phone = some c)
    (hT : is_conversation_timeout now c = true)
    (hnb : ¬(strLower message = "back" ∧ c.state_history ≠ [])) :
    handle_message store phone message now =
      (timeout_response phone,
       commitStore store
         (get_or_create_conversation store phone now).pending_user
         { c.update_state (some ConversationState.START) now with
             state_data := [] },
       [CommitEvent.mutation
         { c.update_state (some ConversationState.START) now with
             state_data := [] }])
    ∧ ({ c.update_state (some ConversationState.START) now with
          state_data := ([] : StateData) } : Conversation).current_state
        = some ConversationState.START := by
  refine ⟨handle_message_timeout store phone message now c hfind hT hnb, ?_⟩
  simpa using update_state_current c (some ConversationState.START) now

/-- Witness for C2 at a concrete timed-out conversation and an ordinary
message. -/
theorem C2_timeout_reset_witness :
    (handle_message
        ⟨["p"], [⟨"p", UserType.UNKNOWN,
          some ConversationState.STUDIO_HEAD_MENU, [("k", "v")],
          [some ConversationState.START], some 0⟩]⟩
        "p" "hello" 10000).1 = timeout_response "p" := by
  have h := (C2_timeout_reset
    ⟨["p"], [⟨"p", UserType.UNKNOWN,
      some ConversationState.STUDIO_HEAD_MENU, [("k", "v")],
      [some ConversationState.START], some 0⟩]⟩
    "p" "hello" 10000
    ⟨"p", UserType.UNKNOWN, some ConversationState.STUDIO_HEAD_MENU,
      [("k", "v")], [some ConversationState.START], some 0⟩
    (by decide) (by decide) (by decide)).1
  rw [h]

/-- C10: a timed-out conversation already sitting in START keeps its stale
`last_interaction` across the timeout reset (the reset to START is a no-op
transition, which refreshes nothing), so any later ordinary message hits the
timeout branch again: the conversation can never advance past the timeout
response by sending ordinary messages. -/
theorem C10_timeout_trap_at_start (store : Store) (phone message : String)
    (now : Int) (c : Conversation)
    (hfind : store.findConv phone = some c)
    (hstart : c.current_state = some ConversationState.START)
    (hT : is_conversation_timeout now c = true)
    (hnb : ¬(strLower message = "back" ∧ c.state_history ≠ [])) :
    handle_message store phone message now =
      (timeout_response phone,
       commitStore store
         (get_or_create_conversation store phone now).pending_user
         { c with state_data := [] },
       [CommitEvent.mutation { c with state_data := [] }])
    ∧ ({ c with state_data := ([] : StateData) } : Conversation).last_interaction
        = c.last_interaction
    ∧ ∀ (now2 : Int) (message2 : String), now ≤ now2 →
        ¬(strLower message2 = "back" ∧ c.state_history ≠ []) →
        (handle_message
          (commitStore store
            (get_or_create_conversation store phone now).pending_user
            { c with state_data := [] })
          phone message2 now2).1 = timeout_response phone := by
  have hid : c.update_state (some ConversationState.START) now = c :=
    update_state_noop c (some ConversationState.START) now hstart
  have h1 := handle_message_timeout store phone message now c hfind hT hnb
  rw [hid] at h1
  refine ⟨h1, rfl, ?_⟩
  intro now2 message2 hle hnb2
  have hpred : (c.phone_number == phone) = true := by
    have := List.find?_some
      (p := fun (x : Conversation) => x.phone_number == phone)
      (by simpa [Store.findConv] using hfind)
    exact this
  have hfind2 :
      (commitStore store
        (get_or_create_conversation store phone now).pending_user
        { c with state_data := [] }).findConv phone =
      some { c with state_data := [] } :=
    findConv_commitStore store _ { c with state_data := [] } phone hpred
  have hT2 : is_conversation_timeout now2 { c with state_data := ([] : StateData) } = true := by
    rw [timeout_congr now2 { c with state_data := ([] : StateData) } c rfl]
    exact timeout_mono now now2 c hle hT
  have h2 := handle_message_timeout
    (commitStore store
      (get_or_create_conversation store phone now).pending_user
      { c with state_data := [] })
    phone message2 now2 { c with state_data := [] } hfind2 hT2 hnb2
  rw [h2]

/-- Witness for C10: a stale conversation in START receives "hello" at time
2000 and "hi" at time 3000 and both get the timeout descriptor. -/
theorem C10_timeout_trap_at_start_witness :
    (handle_message
        ⟨["p"], [⟨"p", UserType.UNKNOWN, some ConversationState.START,
          [("k", "v")], [], some 0⟩]⟩ "p" "hello" 2000).1
      = timeout_response "p"
    ∧ (handle_message
        (commitStore
          ⟨["p"], [⟨"p", UserType.UNKNOWN, some ConversationState.START,
            [("k", "v")], [], some 0⟩]⟩
          (get_or_create_conversation
            ⟨["p"], [⟨"p", UserType.UNKNOWN, some ConversationState.START,
              [("k", "v")], [], some 0⟩]⟩ "p" 2000).pending_user
          { (⟨"p", UserType.UNKNOWN, some ConversationState.START,
              [("k", "v")], [], some 0⟩ : Conversation) with
            state_data := [] })
        "p" "hi" 3000).1 = timeout_response "p" := by
  have h := C10_timeout_trap_at_start
    ⟨["p"], [⟨"p", UserType.UNKNOWN, some ConversationState.START,
      [("k", "v")], [], some 0⟩]⟩ "p" "hello" 2000
    ⟨"p", UserType.UNKNOWN, some ConversationState.START,
      [("k", "v")], [], some 0⟩
    (by decide) (by decide) (by decide) (by decide)
  exact ⟨by rw [h.1], h.2.2 3000 "hi" (by decide) (by decide)⟩

/-- C6 counterexample: a conversation in START with an empty history stack
and no timeout receives "back"; the claim says `current_state` stays
unchanged and the unchanged state's descriptor is returned, but the code
dispatches "back" to the START handler, which advances the conversation to
USER_TYPE_SELECTION. -/
theorem C6_counterexample :
    ((handle_message
        ⟨["p"], [⟨"p", UserType.UNKNOWN, some ConversationState.START,
          [], [], some 100⟩]⟩ "p" "back" 100).2.1.findConv "p").map
        (fun x => x.current_state)
      = some (some ConversationState.USER_TYPE_SELECTION)
    ∧ some ConversationState.USER_TYPE_SELECTION
        ≠ some ConversationState.START
    ∧ (handle_message
        ⟨["p"], [⟨"p", UserType.UNKNOWN, some ConversationState.START,
          [], [], some 100⟩]⟩ "p" "back" 100).1.template
      = "user_type_selection_template"
    ∧ is_conversation_timeout 100
        ⟨"p", UserType.UNKNOWN, some ConversationState.START,
          [], [], some 100⟩ = false
    ∧ (⟨"p", UserType.UNKNOWN, some ConversationState.START,
          [], [], some 100⟩ : Conversation).state_history = [] := by decide

/-- C6 (amended): "back" with an empty history stack (and no timeout) is not
answered with the unchanged state's descriptor; it falls through to normal
dispatch of the literal message "back" in the current state.  For the menu
states, whose handlers do not recognize "back", the conversation is indeed
unchanged and the invalid-option descriptor of the state is returned (and
that unchanged conversation is committed); in START the handler recognizes
any message and advances to USER_TYPE_SELECTION. -/
theorem C6_back_empty_history_dispatches (store : Store)
    (phone message : String) (now : Int) (c : Conversation)
    (hfind : store.findConv phone = some c)
    (hmsg : strLower message = "back")
    (hhist : c.state_history = [])
    (hT : is_conversation_timeout now c = false) :
    handle_message store phone message now =
      dispatch_message (get_or_create_conversation store phone now) c
        phone message now
    ∧ (c.current_state = some ConversationState.START →
        (handle_message store phone message now).1 =
          { template := "user_type_selection_template"
            data := [("phone_number", DataValue.str c.phone_number)] })
    ∧ (c.current_state = some ConversationState.USER_TYPE_SELECTION →
        handle_message store phone message now =
          ({ template := "invalid_user_type_template"
             data := [("phone_number", DataValue.str c.phone_number)] },
           commitStore store
             (get_or_create_conversation store phone now).pending_user c,
           [CommitEvent.mutation c]))
    ∧ (c.current_state = some ConversationState.STUDIO_HEAD_MENU →
        handle_message store phone message now =
          ({ template := "invalid_option_template"
             data := [("phone_number", DataValue.str c.phone_number)] },
           commitStore store
             (get_or_create_conversation store phone now).pending_user c,
           [CommitEvent.mutation c])) := by
  have hnb : ¬(strLower message = "back" ∧ c.state_history ≠ []) :=
    fun hx => hx.2 hhist
  have hmain := handle_message_no_pop store phone message now c hfind hnb
  refine ⟨hmain, ?_, ?_, ?_⟩
  · intro hcur
    rw [hmain]
    unfold dispatch_message
    rw [get_or_create_found store phone now c hfind, hcur]
    simp [hT, state_handlers, handle_start, update_state_phone]
  · intro hcur
    have hut : UserType.ofValue (strLower message) = none := by
      rw [hmsg]; decide
    rw [hmain]
    unfold dispatch_message
    rw [get_or_create_found store phone now c hfind, hcur]
    simp [hT, state_handlers, handle_user_type_selection, hut]
  · intro hcur
    have hopt := options_of_back message hmsg
    rw [hmain]
    unfold dispatch_message
    rw [get_or_create_found store phone now c hfind, hcur]
    simp [hT, state_handlers, handle_studio_head_menu, hopt]

/-- Witness for C6 (amended) at a concrete conversation in
STUDIO_HEAD_MENU with empty history receiving "back". -/
theorem C6_back_empty_history_dispatches_witness :
    (handle_message
        ⟨["p"], [⟨"p", UserType.STUDIO_HEAD,
          some ConversationState.STUDIO_HEAD_MENU, [], [], some 100⟩]⟩
        "p" "back" 100).1 =
      { template := "invalid_option_template"
        data := [("phone_number", DataValue.str "p")] } := by
  have h := (C6_back_empty_history_dispatches
    ⟨["p"], [⟨"p", UserType.STUDIO_HEAD,
      some ConversationState.STUDIO_HEAD_MENU, [], [], some 100⟩]⟩
    "p" "back" 100
    ⟨"p", UserType.STUDIO_HEAD, some ConversationState.STUDIO_HEAD_MENU,
      [], [], some 100⟩
    (by decide) (by decide) (by decide) (by decide)).2.2.2 (by decide)
  rw [h]

/-- C3 counterexample: a first-contact message triggers two separate
commits — one inside `get_or_create_conversation` persisting the new
User/Conversation pair, and a second one for the state mutation — not one
single commit covering both. -/
theorem C3_counterexample :
    (handle_message ⟨[], []⟩ "q" "hello" 0).2.2 =
      [CommitEvent.creation "q",
       CommitEvent.mutation ⟨"q", UserType.UNKNOWN,
         some ConversationState.USER_TYPE_SELECTION, [],
         [some ConversationState.START], some 0⟩]
    ∧ (handle_message ⟨[], []⟩ "q" "hello" 0).2.2.length ≠ 1 := by decide

/-- C3 (amended): for a previously-unseen phone number, every message
produces exactly two commits in order — the creation commit issued inside
`get_or_create_conversation`, then a separate commit of the state mutation
from dispatching the message in the fresh START conversation. -/
theorem C3_creation_commits_separately (store : Store)
    (phone message : String) (now : Int)
    (hfind : store.findConv phone = none) :
    ∃ c2 : Conversation,
      (handle_message store phone message now).2.2 =
        [CommitEvent.creation phone, CommitEvent.mutation c2] := by
  refine ⟨(handle_start (newConversation phone now) message now).2, ?_⟩
  unfold handle_message
  rw [get_or_create_absent store phone now hfind]
  have hgb := go_back_nil (newConversation phone now) now rfl
  have hT : is_conversation_timeout now (newConversation phone now)
      = false := by
    simp [is_conversation_timeout, newConversation, timeout_minutes]
  have hcur : (newConversation phone now).current_state
      = some ConversationState.START := rfl
  unfold dispatch_message
  by_cases hb : strLower message = "back" <;>
    simp [hb, hgb, hT, hcur, state_handlers, handle_start]

/-- Witness for C3 (amended) on the empty store. -/
theorem C3_creation_commits_separately_witness :
    ∃ c2 : Conversation,
      (handle_message ⟨[], []⟩ "q" "hello" 0).2.2 =
        [CommitEvent.creation "q", CommitEvent.mutation c2] :=
  C3_creation_commits_separately ⟨[], []⟩ "q" "hello" 0 (by decide)

/-- C4 counterexample: two sessions race on creating the conversation of a
fresh phone number.  The winner runs `get_or_create_conversation` alone on
the empty store and commits its row; the loser performed both of its SELECTs
before the winner's commit (observing the empty store) and then commits
against the winner's store: its commit violates the `phone_number`
uniqueness constraint, and since the source has no `try`/`except` fallback,
the violation surfaces to the caller instead of the winner's row being
re-fetched. -/
theorem C4_counterexample :
    get_or_create_conversation_race "p" 0 ⟨[], []⟩ ⟨[], []⟩ ⟨[], []⟩ =
      Except.ok (newConversation "p" 0, ⟨["p"], [newConversation "p" 0]⟩)
    ∧ get_or_create_conversation_race "p" 5 ⟨[], []⟩ ⟨[], []⟩
        ⟨["p"], [newConversation "p" 0]⟩ =
      Except.error DBError.integrityError := ⟨rfl, rfl⟩

/-- C4 (amended): the storage layer's uniqueness constraint does prevent a
second Conversation row, but a losing concurrent creator — one whose
conversation SELECT saw no row while some row is committed by the time its
own commit runs — surfaces the uniqueness violation to its caller; it never
falls back to re-fetching the winner's row. -/
theorem C4_losing_creator_raises (phone : String) (now : Int)
    (s_user s_conv s_commit : Store)
    (h1 : s_conv.findConv phone = none)
    (h2 : (s_commit.findConv phone).isSome = true) :
    get_or_create_conversation_race phone now s_user s_conv s_commit =
      Except.error DBError.integrityError := by
  unfold get_or_create_conversation_race
  rw [h1]
  simp [h2]

/-- Witness for C4 (amended) at the concrete losing interleaving of the
counterexample. -/
theorem C4_losing_creator_raises_witness :
    get_or_create_conversation_race "p" 5 ⟨[], []⟩ ⟨[], []⟩
      ⟨["p"], [newConversation "p" 0]⟩ =
    Except.error DBError.integrityError :=
  C4_losing_creator_raises "p" 5 ⟨[], []⟩ ⟨[], []⟩
    ⟨["p"], [newConversation "p" 0]⟩ (by decide) (by decide)

/-- C1: evaluating the code at the failing input.  A conversation in
USER_TYPE_SELECTION receiving "admin" — a `UserType` value with no entry in
the handler's `next_states` dict — has `None` assigned to `current_state`
(`update_state` is called with `dict.get`'s `None`), and `handle_message`
commits that out-of-enum state: the claimed invariant `current_state ∈
ConversationState` is violated by the code. -/
theorem C1_admin_sets_current_state_to_none :
    (handle_user_type_selection
        ⟨"p", UserType.UNKNOWN, some ConversationState.USER_TYPE_SELECTION,
          [], [some ConversationState.START], some 100⟩
        "admin" 100).2.current_state = none
    ∧ ((handle_message
        ⟨["p"], [⟨"p", UserType.UNKNOWN,
          some ConversationState.USER_TYPE_SELECTION, [],
          [some ConversationState.START], some 100⟩]⟩
        "p" "admin" 100).2.1.findConv "p").map (fun x => x.current_state)
      = some none
    ∧ (handle_message
        ⟨["p"], [⟨"p", UserType.UNKNOWN,
          some ConversationState.USER_TYPE_SELECTION, [],
          [some ConversationState.START], some 100⟩]⟩
        "p" "admin" 100).2.2 =
      [CommitEvent.mutation ⟨"p", UserType.ADMIN, none, [],
        [some ConversationState.START,
         some ConversationState.USER_TYPE_SELECTION], some 100⟩] := by decide
